import Mathlib

/-!
Verification of the BallPrediction repository core:
`src/data_filter/DataFilter.py` and `src/models/concrete/GatedRecurrentUnit.py`,
shallowly embedded in Lean 4.

Numeric arrays are modelled as lists of rows over `ℚ`; TensorFlow's
variable store is modelled as an explicit association list from scope
paths to variables; Python exceptions are modelled with `Except`.
-/

namespace BallPrediction

/-- A trajectory is a two-dimensional numeric array: a list of rows.
`shape[0]` is the number of rows, i.e. the length of the outer list. -/
abbrev Traj := List (List ℚ)

/-- The errors the embedded Python code can raise. -/
inductive PyError where
  /-- `NotImplementedError`, raised by the base `DataFilter.apply_filter`. -/
  | notImplementedError
  deriving DecidableEq, Repr

namespace DataFilter

/-- `DataFilter.apply_filter` of the base class
(`src/data_filter/DataFilter.py`, lines 48-49): it unconditionally raises
`NotImplementedError`. -/
def apply_filter (_trajectory : Traj) : Except PyError Traj :=
  .error .notImplementedError

/-- The Python list comprehension `[af trajectory for trajectory in ts]`:
applies `af` left to right, propagating the first raised exception. -/
def listComp (af : Traj → Except PyError Traj) : List Traj → Except PyError (List Traj)
  | [] => .ok []
  | t :: ts => do
    let ft ← af t
    let fts ← listComp af ts
    pure (ft :: fts)

/-- `DataFilter.filter` (`src/data_filter/DataFilter.py`, lines 35-41),
generic in the (possibly overridden, possibly raising) `apply_filter`
method `af`: it maps `af` over the trajectories (the list comprehension,
which propagates the first exception) and keeps the results whose row
count `shape[0]` is nonzero. -/
def filterTrajectories (af : Traj → Except PyError Traj) (trajectories : List Traj) :
    Except PyError (List Traj) := do
  let f_trajectories ← listComp af trajectories
  let rf_trajectories := f_trajectories.filter (fun x => x.length != 0)
  pure rf_trajectories

end DataFilter

/-! ### Tensors and the hidden-state accessors -/

/-- Element types of the numeric frameworks used by the code. -/
inductive Dtype where
  | float32
  | float64
  deriving DecidableEq, Repr

/-- The contents of a tensor, as far as the hidden-state accessors are
concerned: either all zeros, or an unbound placeholder awaiting a feed. -/
inductive TensorData where
  | zeros
  | unbound
  deriving DecidableEq, Repr

/-- A tensor or numpy array: a shape, an element type, and its data. -/
structure Tensor where
  shape : List Nat
  dtype : Dtype
  data : TensorData
  deriving DecidableEq, Repr

/-- `tf.zeros(shape, dtype)`: a symbolic all-zero tensor. -/
def tfZeros (shape : List Nat) (dtype : Dtype) : Tensor :=
  ⟨shape, dtype, .zeros⟩

/-- `tf.placeholder(dtype, shape, name)`: an unbound placeholder. -/
def tfPlaceholder (dtype : Dtype) (shape : List Nat) (_pname : String) : Tensor :=
  ⟨shape, dtype, .unbound⟩

/-- `np.zeros(shape)`. Modelled from numpy semantics: with no `dtype`
argument, `np.zeros` defaults to `float64`. -/
def npZeros (shape : List Nat) : Tensor :=
  ⟨shape, .float64, .zeros⟩

/-- The configuration keys of the GRU that the embedded methods read. -/
structure GRUConfig where
  num_hidden : Nat
  num_cells : Nat
  num_input : Nat
  deriving DecidableEq, Repr

namespace GatedRecurrentUnit

/-- `GatedRecurrentUnit.get_h` (lines 59-62): a single symbolic
`tf.float32` zero tensor of shape `[num_hidden * num_cells, 1]`. -/
def get_h (cfg : GRUConfig) : List Tensor :=
  let size := cfg.num_hidden * cfg.num_cells
  [tfZeros [size, 1] .float32]

/-- `GatedRecurrentUnit.get_step_h` (lines 68-71): a single `tf.float32`
placeholder of shape `[num_hidden * num_cells, 1]`. -/
def get_step_h (cfg : GRUConfig) : List Tensor :=
  let size := cfg.num_hidden * cfg.num_cells
  [tfPlaceholder .float32 [size, 1] "step_h"]

/-- `GatedRecurrentUnit.get_current_h` (lines 73-76): a single concrete
numpy zero array of shape `[num_hidden * num_cells, 1]`. -/
def get_current_h (cfg : GRUConfig) : List Tensor :=
  let size := cfg.num_hidden * cfg.num_cells
  [npZeros [size, 1]]

end GatedRecurrentUnit

/-! ### Matrices and the TensorFlow variable store -/

/-- A numeric matrix: a list of rows over `ℚ`. Column vectors (the
inputs `x`, hidden states `h`, biases `b`) are matrices with one
column, exactly as in the TensorFlow code. -/
abbrev Mat := List (List ℚ)

/-- Dot product of two equally long rows. -/
def dotProd (r v : List ℚ) : ℚ := (List.zipWith (· * ·) r v).sum

/-- Matrix product `A @ B` (TensorFlow `matmul`). -/
def matMul (A B : Mat) : Mat :=
  A.map (fun r => B.transpose.map (fun c => dotProd r c))

/-- Elementwise matrix addition (`+` / `tf.add`). -/
def matAdd (A B : Mat) : Mat := List.zipWith (List.zipWith (· + ·)) A B

/-- Elementwise (Hadamard) matrix product (`tf.multiply`). -/
def matMulEW (A B : Mat) : Mat := List.zipWith (List.zipWith (· * ·)) A B

/-- `tf.ones([]) - A`: the scalar one broadcast against `A`. -/
def matOneSub (A : Mat) : Mat := A.map (List.map (fun q => 1 - q))

/-- Elementwise application of an activation function. -/
def matMap (f : ℚ → ℚ) (A : Mat) : Mat := A.map (List.map f)

/-- `tf.slice(A, [rowBegin, colBegin], [rowSize, colSize])`. -/
def tfSlice (A : Mat) (rowBegin colBegin rowSize colSize : Nat) : Mat :=
  ((A.drop rowBegin).take rowSize).map (fun r => (r.drop colBegin).take colSize)

/-- The `r × c` matrix whose entries are drawn from an initializer. -/
def mkMatrix (r c : Nat) (f : Nat → Nat → ℚ) : Mat :=
  (List.range r).map (fun i => (List.range c).map (fun j => f i j))

/-- `A` has `r` rows, each of length `c`. -/
def HasShape (A : Mat) (r c : Nat) : Prop :=
  A.length = r ∧ ∀ row ∈ A, row.length = c

/-- A graph variable: a distinct handle (its creation index) and its
value. Two `get_variable` calls return the same parameter exactly when
they return the same `Variable`. -/
structure Variable where
  id : Nat
  value : Mat
  deriving DecidableEq, Repr

/-- TensorFlow's variable store: the named variables of the graph, keyed
by their full scope path, in creation order, plus the next fresh handle. -/
structure Store where
  vars : List (List String × Variable)
  nextId : Nat
  deriving DecidableEq, Repr

instance : Inhabited Variable := ⟨⟨0, []⟩⟩

instance : Nonempty (List String × Variable) := ⟨([], ⟨0, []⟩)⟩

/-- A fresh graph with no variables. -/
def emptyStore : Store := ⟨[], 0⟩

/-- Look a scope path up in the store. -/
def findVar : List (List String × Variable) → List String → Option Variable
  | [], _ => none
  | (k, v) :: rest, key => if k = key then some v else findVar rest key

/-- Graph-construction errors (TensorFlow `ValueError`s). -/
inductive TFError where
  /-- `get_variable` under `reuse=None` on an existing variable. -/
  | variableAlreadyExists
  /-- `get_variable` under `reuse=True` on a missing variable. -/
  | variableNotFound
  /-- unpacking `[h] = h_state` of a list that is not a singleton. -/
  | unpackMismatch
  deriving DecidableEq, Repr

/-- `tf.get_variable(name, shape, initializer=...)` inside a scope
entered with `reuse=None`: creating mode. It fails if the variable
already exists, and otherwise appends a fresh variable to the store. -/
def getVariableCreate (s : Store) (key : List String) (value : Mat) :
    Except TFError (Variable × Store) :=
  match findVar s.vars key with
  | some _ => .error .variableAlreadyExists
  | none =>
    let v : Variable := ⟨s.nextId, value⟩
    .ok (v, ⟨s.vars ++ [(key, v)], s.nextId + 1⟩)

/-- `tf.get_variable(name)` inside a scope entered with `reuse=True`:
retrieving mode. It fails if the variable does not exist, and otherwise
returns the existing variable, leaving the store untouched. -/
def getVariableReuse (s : Store) (key : List String) :
    Except TFError (Variable × Store) :=
  match findVar s.vars key with
  | some v => .ok (v, s)
  | none => .error .variableNotFound

/-- The pieces of `self` that the GRU methods read: the configuration,
the base class's initializers (modelled as entry-valued functions: the
variable's shape comes from `get_variable`, the initializer only fills
entries), and `tf.sigmoid` / `tf.tanh` (modelled as abstract functions
on `ℚ`, since the structural claims do not depend on the transcendental
float functions themselves). -/
structure GRUEnv where
  cfg : GRUConfig
  weights_init : Nat → Nat → ℚ
  bias_init : Nat → Nat → ℚ
  sigmoid : ℚ → ℚ
  tanh : ℚ → ℚ

namespace GatedRecurrentUnit

/-- `GatedRecurrentUnit.init_layer` (lines 78-96): enters
`variable_scope(name)` with `reuse=None` and creates `W : [H, I]`,
`R : [H, H * hidden_mult]`, and `b : [H, 1]`. Scope nesting is modelled
as path concatenation. -/
def init_layer (env : GRUEnv) (scope : List String) (name : String)
    (hidden_mult : Nat) (s : Store) : Except TFError Store := do
  let sc := scope ++ [name]
  let H := env.cfg.num_hidden
  let I := env.cfg.num_input
  let (_, s1) ← getVariableCreate s (sc ++ ["W"]) (mkMatrix H I env.weights_init)
  let (_, s2) ← getVariableCreate s1 (sc ++ ["R"])
    (mkMatrix H (H * hidden_mult) env.weights_init)
  let (_, s3) ← getVariableCreate s2 (sc ++ ["b"]) (mkMatrix H 1 env.bias_init)
  pure s3

/-- `GatedRecurrentUnit.create_layer` (lines 98-123): enters
`variable_scope(name)` with `reuse=True`, retrieves `W`, `R`, `b`, and
returns `activation(W @ x + R @ h + b)`. -/
def create_layer (scope : List String) (name : String) (activation : ℚ → ℚ)
    (x h : Mat) (s : Store) : Except TFError (Mat × Store) := do
  let sc := scope ++ [name]
  let (W, s1) ← getVariableReuse s (sc ++ ["W"])
  let (R, s2) ← getVariableReuse s1 (sc ++ ["R"])
  let (b, s3) ← getVariableReuse s2 (sc ++ ["b"])
  let term := matAdd (matAdd (matMul W.value x) (matMul R.value h)) b.value
  pure (matMap activation term, s3)

/-- `GatedRecurrentUnit.init_cell` (lines 125-137): enters
`variable_scope(name)` with `reuse=None` and initializes the layers
`recurrent_gate` and `input_gate` with multiplier `num_cells` and
`input_node` with multiplier `1`. -/
def init_cell (env : GRUEnv) (scope : List String) (name : String)
    (s : Store) : Except TFError Store := do
  let sc := scope ++ [name]
  let s1 ← init_layer env sc "recurrent_gate" env.cfg.num_cells s
  let s2 ← init_layer env sc "input_gate" env.cfg.num_cells s1
  init_layer env sc "input_node" 1 s2

/-- `GatedRecurrentUnit.create_cell` (lines 139-172): unpacks
`[h] = h_state`, enters `variable_scope(name)` with `reuse=True`, slices
this cell's `[H, 1]` block out of `h`, applies the gate layers, and
returns the new hidden slice wrapped in a single-element list. -/
def create_cell (env : GRUEnv) (scope : List String) (name : String)
    (x : Mat) (h_state : List Mat) (num_cell : Nat) (s : Store) :
    Except TFError (List Mat × Store) :=
  match h_state with
  | [h] => do
    let sc := scope ++ [name]
    let H := env.cfg.num_hidden
    let ex_h := tfSlice h (H * num_cell) 0 H 1
    let (recurrent_gate, s1) ← create_layer sc "recurrent_gate" env.sigmoid x h s
    let mod_h := matMulEW recurrent_gate ex_h
    let (input_gate, s2) ← create_layer sc "input_gate" env.sigmoid x h s1
    let (input_node, s3) ← create_layer sc "input_node" env.tanh x mod_h s2
    let right_input_node := matMulEW input_gate input_node
    let left_input_node := matMulEW (matOneSub input_gate) ex_h
    let new_h := matAdd left_input_node right_input_node
    pure ([new_h], s3)
  | _ => .error .unpackMismatch

end GatedRecurrentUnit

/-- The new hidden slice as the spec states it, for comparison with
`create_cell`: `new_slice = input_gate ⊙ tanh(W·x + R·(recurrent_gate ⊙ h_i) + b)
+ (1 − input_gate) ⊙ h_i`, where `h_i` is the slice of `h` at offset
`num_hidden * i` of length `num_hidden`, and each gate is
`sigmoid(W'·x + R'·h + b')` over the full hidden state with that gate's
own parameters. -/
def claimedNewSlice (env : GRUEnv) (Wr Rr br Wi Ri bi Wn Rn bn : Mat)
    (x h : Mat) (i : Nat) : Mat :=
  let H := env.cfg.num_hidden
  let h_i := (h.drop (H * i)).take H
  let recurrent_gate :=
    matMap env.sigmoid (matAdd (matAdd (matMul Wr x) (matMul Rr h)) br)
  let input_gate :=
    matMap env.sigmoid (matAdd (matAdd (matMul Wi x) (matMul Ri h)) bi)
  let input_node :=
    matMap env.tanh
      (matAdd (matAdd (matMul Wn x) (matMul Rn (matMulEW recurrent_gate h_i))) bn)
  matAdd (matMulEW input_gate input_node) (matMulEW (matOneSub input_gate) h_i)

/-- A small concrete instantiation for exercising the theorems:
`num_hidden = 1`, `num_cells = 2`, `num_input = 1`, zero initializers,
and affine stand-ins for the activation functions. -/
def witnessEnv : GRUEnv :=
  ⟨⟨1, 2, 1⟩, fun _ _ => 0, fun _ _ => 0, fun q => q + 1, fun q => 2 * q⟩

/-- A concrete store holding the three layers of the cell `cell0`, with
distinct parameter values per layer. -/
def witnessStore : Store :=
  ⟨[(["cell0", "recurrent_gate", "W"], ⟨0, [[2]]⟩),
    (["cell0", "recurrent_gate", "R"], ⟨1, [[3, 1]]⟩),
    (["cell0", "recurrent_gate", "b"], ⟨2, [[1]]⟩),
    (["cell0", "input_gate", "W"], ⟨3, [[1]]⟩),
    (["cell0", "input_gate", "R"], ⟨4, [[2, 2]]⟩),
    (["cell0", "input_gate", "b"], ⟨5, [[3]]⟩),
    (["cell0", "input_node", "W"], ⟨6, [[4]]⟩),
    (["cell0", "input_node", "R"], ⟨7, [[5]]⟩),
    (["cell0", "input_node", "b"], ⟨8, [[6]]⟩)], 9⟩

/-! ### The constructor's configuration rewrite -/

/-- A value stored in the configuration mapping. -/
inductive ConfigVal where
  | num (q : ℚ)
  | str (s : String)
  deriving DecidableEq, Repr

/-- A Python dict keyed by strings, as an insertion-ordered association
list without duplicate keys (lookups take the first match). -/
abbrev Config := List (String × ConfigVal)

/-- Dictionary lookup `config[k]` (`none` models a `KeyError`). -/
def getKey : Config → String → Option ConfigVal
  | [], _ => none
  | (k', v) :: rest, k => if k' = k then some v else getKey rest k

/-- Dictionary assignment `config[k] = v`: overwrite the existing entry
in place, or append a new one. -/
def setKey : Config → String → ConfigVal → Config
  | [], k, v => [(k, v)]
  | (k', v') :: rest, k, v =>
    if k' = k then (k, v) :: rest else (k', v') :: setKey rest k v

/-- Errors the constructor body can raise. -/
inductive ConfigError where
  /-- `KeyError`: `config['unique_name']` is absent. -/
  | keyError
  /-- `TypeError`: `"GRU_" + config['unique_name']` with a non-string. -/
  | typeError
  deriving DecidableEq, Repr

/-- `GatedRecurrentUnit.__init__` (lines 34-57), up to the super call:
sets `config['clip_norm'] = 0`, replaces `config['unique_name']` with
`"GRU_" + config['unique_name']`, and returns the modified mapping that
is then handed to the base-class constructor
(`RecurrentNeuralNetwork.__init__`). -/
def gruInitConfig (config : Config) : Except ConfigError Config :=
  let config := setKey config "clip_norm" (.num 0)
  match getKey config "unique_name" with
  | some (.str s) => .ok (setKey config "unique_name" (.str ("GRU_" ++ s)))
  | some _ => .error .typeError
  | none => .error .keyError

end BallPrediction

open BallPrediction

/-- C2: for a pure (non-raising) `apply_filter` override `af`,
`filter` succeeds and returns exactly the subsequence of
`[apply_filter t for t in trajectories]` whose elements have nonzero row
count: the result is a sublist of the mapped list (hence in original
order), and every value with nonzero row count keeps its exact
multiplicity while every value with zero row count is absent (hence no
reordering, omission, or duplication). -/
theorem filter_is_nonzero_subsequence (af : Traj → Traj) (trajectories : List Traj) :
    ∃ rf : List Traj,
      DataFilter.filterTrajectories (fun t => .ok (af t)) trajectories = .ok rf ∧
      rf.Sublist (trajectories.map af) ∧
      (∀ x : Traj, x.length ≠ 0 → rf.count x = (trajectories.map af).count x) ∧
      (∀ x : Traj, x.length = 0 → rf.count x = 0) := by
  have hmap : DataFilter.listComp (fun t => .ok (af t)) trajectories
      = .ok (trajectories.map af) := by
    induction trajectories with
    | nil => rfl
    | cons t ts ih =>
      show DataFilter.listComp (fun t => .ok (af t)) ts >>= _ = _
      rw [ih]
      rfl
  refine ⟨(trajectories.map af).filter (fun x => x.length != 0), ?_, ?_, ?_, ?_⟩
  · simp [DataFilter.filterTrajectories, hmap]
  · exact List.filter_sublist _
  · intro x hx
    exact List.count_filter (by simpa using hx)
  · intro x hx
    rw [List.count_eq_zero]
    intro hmem
    have := List.of_mem_filter hmem
    simp [hx] at this

/-! ### Helper lemmas about keys, the store, and matrices -/

/-- Scope paths with a common path prograph and two trailing components
are equal exactly when the components agree. -/
theorem key_pair_eq_iff (p : List String) (a b a' b' : String) :
    (p ++ [a, b] = p ++ [a', b']) ↔ (a = a' ∧ b = b') := by
  constructor
  · intro he
    have h2 := List.append_cancel_left he
    simpa using h2
  · rintro ⟨rfl, rfl⟩
    rfl

/-- Scope paths with a common path and three trailing components are
equal exactly when the components agree. -/
theorem key_triple_eq_iff (p : List String) (a b c a' b' c' : String) :
    (p ++ [a, b, c] = p ++ [a', b', c']) ↔ (a = a' ∧ b = b' ∧ c = c') := by
  constructor
  · intro he
    have h2 := List.append_cancel_left he
    simpa using h2
  · rintro ⟨rfl, rfl, rfl⟩
    rfl

/-- Binding a successful `Except` computation applies the continuation. -/
theorem except_ok_bind {ε α β : Type} (a : α) (f : α → Except ε β) :
    (Except.ok a : Except ε α) >>= f = f a := rfl

/-- Binding a failed `Except` computation propagates the error. -/
theorem except_error_bind {ε α β : Type} (e : ε) (f : α → Except ε β) :
    (Except.error e : Except ε α) >>= f = Except.error e := rfl

/-- Binding a pure `Except` computation applies the continuation. -/
theorem except_pure_bind {ε α β : Type} (a : α) (f : α → Except ε β) :
    (pure a : Except ε α) >>= f = f a := rfl

/-- A lookup in a concatenation of stores falls through to the second
part when the first has no match. -/
theorem findVar_append_of_none (l1 l2 : List (List String × Variable))
    (k : List String) (h : findVar l1 k = none) :
    findVar (l1 ++ l2) k = findVar l2 k := by
  induction l1 with
  | nil => rfl
  | cons p rest ih =>
    obtain ⟨k', v⟩ := p
    by_cases hp : k' = k
    · simp [findVar, hp] at h
    · simp only [List.cons_append, findVar, if_neg hp] at h ⊢
      exact ih h

/-- A key is absent from the store exactly when it is not among the
stored keys. -/
theorem findVar_eq_none_iff (l : List (List String × Variable)) (k : List String) :
    findVar l k = none ↔ k ∉ l.map Prod.fst := by
  induction l with
  | nil => simp [findVar]
  | cons p rest ih =>
    obtain ⟨k', v⟩ := p
    by_cases hp : k' = k
    · subst hp
      simp [findVar]
    · simp [findVar, hp, ih, Ne.symm hp]

/-- Elementwise matrix addition is commutative. -/
theorem matAdd_comm (A B : Mat) : matAdd A B = matAdd B A :=
  List.zipWith_comm_of_comm _
    (fun r1 r2 => List.zipWith_comm_of_comm _ (fun a b => add_comm a b) r1 r2) A B

/-- Two `create_cell`-shaped results whose outermost sum is flipped are
equal, by commutativity of elementwise addition. -/
theorem ok_new_h_comm (A B : Mat) (s : Store) :
    (Except.ok ([matAdd A B], s) : Except TFError (List Mat × Store))
      = .ok ([matAdd B A], s) := by
  rw [matAdd_comm]

/-- On a column vector, `tf.slice` with column window `[0, 1)` is the
plain row slice. -/
theorem tfSlice_col (h : Mat) (start len : Nat)
    (hcol : ∀ r ∈ h, r.length = 1) :
    tfSlice h start 0 len 1 = (h.drop start).take len := by
  unfold tfSlice
  have hrows : ∀ r ∈ (h.drop start).take len, (r.drop 0).take 1 = r := by
    intro r hr
    have hmem : r ∈ h := List.mem_of_mem_drop (List.mem_of_mem_take hr)
    have hlen := hcol r hmem
    simp [List.take_of_length_le, hlen.le]
  calc ((h.drop start).take len).map (fun r => (r.drop 0).take 1)
      = ((h.drop start).take len).map id := List.map_congr_left hrows
    _ = (h.drop start).take len := List.map_id _

/-- `mkMatrix r c f` has shape `r × c`. -/
theorem mkMatrix_hasShape (r c : Nat) (f : Nat → Nat → ℚ) :
    HasShape (mkMatrix r c f) r c := by
  constructor
  · simp [mkMatrix]
  · intro row hrow
    simp [mkMatrix] at hrow
    obtain ⟨i, _, rfl⟩ := hrow
    simp

/-- When its three parameter names are fresh, `init_layer` succeeds and
appends exactly the variables `W`, `R`, `b` with consecutive fresh
handles. -/
theorem init_layer_ok (env : GRUEnv) (scope : List String) (name : String)
    (mult : Nat) (s : Store)
    (hW : findVar s.vars (scope ++ [name, "W"]) = none)
    (hR : findVar s.vars (scope ++ [name, "R"]) = none)
    (hb : findVar s.vars (scope ++ [name, "b"]) = none) :
    GatedRecurrentUnit.init_layer env scope name mult s = .ok
      ⟨s.vars ++
        [(scope ++ [name, "W"],
            ⟨s.nextId, mkMatrix env.cfg.num_hidden env.cfg.num_input env.weights_init⟩),
         (scope ++ [name, "R"],
            ⟨s.nextId + 1,
              mkMatrix env.cfg.num_hidden (env.cfg.num_hidden * mult) env.weights_init⟩),
         (scope ++ [name, "b"],
            ⟨s.nextId + 2, mkMatrix env.cfg.num_hidden 1 env.bias_init⟩)],
       s.nextId + 3⟩ := by
  have hWR : ("W" : String) ≠ "R" := by decide
  have hWb : ("W" : String) ≠ "b" := by decide
  have hRb : ("R" : String) ≠ "b" := by decide
  simp only [GatedRecurrentUnit.init_layer, getVariableCreate,
    List.append_assoc, List.singleton_append, List.cons_append, List.nil_append,
    hW, hR, hb, findVar_append_of_none, findVar, key_pair_eq_iff,
    except_ok_bind, except_pure_bind, hWR, hWb, hRb]
  simp [hW, hR, hb, findVar_append_of_none, findVar, key_pair_eq_iff, hWR, hWb, hRb,
    except_ok_bind, except_pure_bind, Except.map_ok, Nat.add_assoc]

/-- C4: `create_layer` retrieves the previously declared parameters
`W`, `R`, `b` of the given name and returns
`activation(W·x + R·h + b)`, leaving the variable store exactly as it
was: it never creates new parameters. -/
theorem create_layer_applies_declared_params (scope : List String) (name : String)
    (activation : ℚ → ℚ) (x h : Mat) (s : Store) (vW vR vb : Variable)
    (hW : findVar s.vars (scope ++ [name, "W"]) = some vW)
    (hR : findVar s.vars (scope ++ [name, "R"]) = some vR)
    (hb : findVar s.vars (scope ++ [name, "b"]) = some vb) :
    GatedRecurrentUnit.create_layer scope name activation x h s
      = .ok (matMap activation
          (matAdd (matAdd (matMul vW.value x) (matMul vR.value h)) vb.value), s) := by
  simp [GatedRecurrentUnit.create_layer, getVariableReuse, hW, hR, hb,
    except_ok_bind, Except.map_ok]

/-- C1: with the three gate layers' parameters declared in the store,
and `h` a column vector, `create_cell` returns the single-element list
holding exactly the spec's
`input_gate ⊙ tanh(W·x + R·(recurrent_gate ⊙ h_i) + b) + (1 − input_gate) ⊙ h_i`,
with `h_i` the `num_hidden`-sized slice of `h` at offset
`num_hidden * num_cell` and each gate `sigmoid(W'·x + R'·h + b')` over
the full hidden state with its own parameters. -/
theorem create_cell_matches_spec_formula
    (env : GRUEnv) (scope : List String) (name : String)
    (x h : Mat) (num_cell : Nat) (s : Store)
    (vrW vrR vrb viW viR vib vnW vnR vnb : Variable)
    (hcol : ∀ r ∈ h, r.length = 1)
    (h1 : findVar s.vars (scope ++ [name, "recurrent_gate", "W"]) = some vrW)
    (h2 : findVar s.vars (scope ++ [name, "recurrent_gate", "R"]) = some vrR)
    (h3 : findVar s.vars (scope ++ [name, "recurrent_gate", "b"]) = some vrb)
    (h4 : findVar s.vars (scope ++ [name, "input_gate", "W"]) = some viW)
    (h5 : findVar s.vars (scope ++ [name, "input_gate", "R"]) = some viR)
    (h6 : findVar s.vars (scope ++ [name, "input_gate", "b"]) = some vib)
    (h7 : findVar s.vars (scope ++ [name, "input_node", "W"]) = some vnW)
    (h8 : findVar s.vars (scope ++ [name, "input_node", "R"]) = some vnR)
    (h9 : findVar s.vars (scope ++ [name, "input_node", "b"]) = some vnb) :
    GatedRecurrentUnit.create_cell env scope name x [h] num_cell s
      = .ok ([claimedNewSlice env vrW.value vrR.value vrb.value
          viW.value viR.value vib.value vnW.value vnR.value vnb.value
          x h num_cell], s) := by
  have hslice := tfSlice_col h (env.cfg.num_hidden * num_cell) env.cfg.num_hidden hcol
  simp only [GatedRecurrentUnit.create_cell, GatedRecurrentUnit.create_layer,
    getVariableReuse, List.append_assoc, List.singleton_append, List.cons_append,
    List.nil_append, h1, h2, h3, h4, h5, h6, h7, h8, h9,
    except_ok_bind, except_pure_bind, Except.map_ok, hslice, claimedNewSlice]
  exact ok_new_h_comm _ _ _

/-- C5: `init_layer` declares exactly three parameters with shapes
`W : [num_hidden, num_input]`, `R : [num_hidden, num_hidden * mult]`,
and `b : [num_hidden, 1]`; and `init_cell` declares the layers
`recurrent_gate` and `input_gate` with multiplier `num_cells` and the
layer `input_node` with multiplier `1`. -/
theorem init_layer_and_init_cell_shapes
    (env : GRUEnv) (scope : List String) (name : String) (mult : Nat) (s : Store)
    (hW : findVar s.vars (scope ++ [name, "W"]) = none)
    (hR : findVar s.vars (scope ++ [name, "R"]) = none)
    (hb : findVar s.vars (scope ++ [name, "b"]) = none) :
    (GatedRecurrentUnit.init_layer env scope name mult s = .ok
      ⟨s.vars ++
        [(scope ++ [name, "W"],
            ⟨s.nextId, mkMatrix env.cfg.num_hidden env.cfg.num_input env.weights_init⟩),
         (scope ++ [name, "R"],
            ⟨s.nextId + 1,
              mkMatrix env.cfg.num_hidden (env.cfg.num_hidden * mult) env.weights_init⟩),
         (scope ++ [name, "b"],
            ⟨s.nextId + 2, mkMatrix env.cfg.num_hidden 1 env.bias_init⟩)],
       s.nextId + 3⟩) ∧
    HasShape (mkMatrix env.cfg.num_hidden env.cfg.num_input env.weights_init)
      env.cfg.num_hidden env.cfg.num_input ∧
    HasShape (mkMatrix env.cfg.num_hidden (env.cfg.num_hidden * mult) env.weights_init)
      env.cfg.num_hidden (env.cfg.num_hidden * mult) ∧
    HasShape (mkMatrix env.cfg.num_hidden 1 env.bias_init) env.cfg.num_hidden 1 ∧
    (GatedRecurrentUnit.init_cell env scope name emptyStore = .ok
      ⟨[(scope ++ [name, "recurrent_gate", "W"],
           ⟨0, mkMatrix env.cfg.num_hidden env.cfg.num_input env.weights_init⟩),
        (scope ++ [name, "recurrent_gate", "R"],
           ⟨1, mkMatrix env.cfg.num_hidden (env.cfg.num_hidden * env.cfg.num_cells)
              env.weights_init⟩),
        (scope ++ [name, "recurrent_gate", "b"],
           ⟨2, mkMatrix env.cfg.num_hidden 1 env.bias_init⟩),
        (scope ++ [name, "input_gate", "W"],
           ⟨3, mkMatrix env.cfg.num_hidden env.cfg.num_input env.weights_init⟩),
        (scope ++ [name, "input_gate", "R"],
           ⟨4, mkMatrix env.cfg.num_hidden (env.cfg.num_hidden * env.cfg.num_cells)
              env.weights_init⟩),
        (scope ++ [name, "input_gate", "b"],
           ⟨5, mkMatrix env.cfg.num_hidden 1 env.bias_init⟩),
        (scope ++ [name, "input_node", "W"],
           ⟨6, mkMatrix env.cfg.num_hidden env.cfg.num_input env.weights_init⟩),
        (scope ++ [name, "input_node", "R"],
           ⟨7, mkMatrix env.cfg.num_hidden (env.cfg.num_hidden * 1) env.weights_init⟩),
        (scope ++ [name, "input_node", "b"],
           ⟨8, mkMatrix env.cfg.num_hidden 1 env.bias_init⟩)],
       9⟩) := by
  refine ⟨init_layer_ok env scope name mult s hW hR hb,
    mkMatrix_hasShape _ _ _, mkMatrix_hasShape _ _ _, mkMatrix_hasShape _ _ _, ?_⟩
  have hWR : ("W" : String) ≠ "R" := by decide
  have hWb : ("W" : String) ≠ "b" := by decide
  have hRb : ("R" : String) ≠ "b" := by decide
  have hRI : ("recurrent_gate" : String) ≠ "input_gate" := by decide
  have hRN : ("recurrent_gate" : String) ≠ "input_node" := by decide
  have hIN : ("input_gate" : String) ≠ "input_node" := by decide
  simp [GatedRecurrentUnit.init_cell, GatedRecurrentUnit.init_layer,
    getVariableCreate, emptyStore, findVar, List.append_assoc,
    key_pair_eq_iff, key_triple_eq_iff,
    hWR, hWb, hRb, hRI, hRN, hIN,
    except_ok_bind, except_pure_bind, Except.map_ok]

/-- C3: the create-once/reuse-many discipline. A first `init_layer`
(entered with `reuse=None`) creates the parameters; a second
`init_layer` with the same name fails instead of creating duplicates,
so the parameter names stay duplicate-free; and reuse-mode retrieval —
what `create_layer` performs under `reuse=True` — returns exactly the
variable handles the first `init_layer` declared, without touching the
store. -/
theorem init_layer_create_once_reuse_many
    (env : GRUEnv) (scope : List String) (name : String) (mult : Nat) (s : Store)
    (activation : ℚ → ℚ) (x h : Mat)
    (hW : findVar s.vars (scope ++ [name, "W"]) = none)
    (hR : findVar s.vars (scope ++ [name, "R"]) = none)
    (hb : findVar s.vars (scope ++ [name, "b"]) = none)
    (hnodup : (s.vars.map Prod.fst).Nodup) :
    ∃ s' : Store,
      GatedRecurrentUnit.init_layer env scope name mult s = .ok s' ∧
      GatedRecurrentUnit.init_layer env scope name mult s'
        = .error .variableAlreadyExists ∧
      (s'.vars.map Prod.fst).Nodup ∧
      ∃ vW vR vb : Variable,
        s'.vars = s.vars ++ [(scope ++ [name, "W"], vW), (scope ++ [name, "R"], vR),
          (scope ++ [name, "b"], vb)] ∧
        getVariableReuse s' (scope ++ [name, "W"]) = .ok (vW, s') ∧
        getVariableReuse s' (scope ++ [name, "R"]) = .ok (vR, s') ∧
        getVariableReuse s' (scope ++ [name, "b"]) = .ok (vb, s') ∧
        GatedRecurrentUnit.create_layer scope name activation x h s'
          = .ok (matMap activation
              (matAdd (matAdd (matMul vW.value x) (matMul vR.value h)) vb.value), s') := by
  have hWR : ("W" : String) ≠ "R" := by decide
  have hWb : ("W" : String) ≠ "b" := by decide
  have hRb : ("R" : String) ≠ "b" := by decide
  have hmain := init_layer_ok env scope name mult s hW hR hb
  refine ⟨_, hmain, ?_, ?_, ⟨_, _, _, rfl, ?_, ?_, ?_, ?_⟩⟩
  · simp [GatedRecurrentUnit.init_layer, getVariableCreate,
      findVar_append_of_none, hW, findVar, except_error_bind]
  · rw [List.map_append, List.nodup_append]
    refine ⟨hnodup, ?_, ?_⟩
    · simp [key_pair_eq_iff, hWR, hWb, hRb]
    · have h1 := (findVar_eq_none_iff _ _).1 hW
      have h2 := (findVar_eq_none_iff _ _).1 hR
      have h3 := (findVar_eq_none_iff _ _).1 hb
      intro a ha hmem
      simp only [List.map_cons, List.map_nil, List.mem_cons,
        List.not_mem_nil, or_false] at hmem
      rcases hmem with rfl | rfl | rfl
      · exact h1 ha
      · exact h2 ha
      · exact h3 ha
  · simp [getVariableReuse, findVar_append_of_none, hW, findVar]
  · simp [getVariableReuse, findVar_append_of_none, hR, findVar,
      key_pair_eq_iff, hWR, hWb, hRb]
  · simp [getVariableReuse, findVar_append_of_none, hb, findVar,
      key_pair_eq_iff, hWR, hWb, hRb]
  · simp [GatedRecurrentUnit.create_layer, getVariableReuse,
      findVar_append_of_none, hW, hR, hb, findVar, key_pair_eq_iff,
      hWR, hWb, hRb, except_ok_bind, Except.map_ok, List.append_assoc]

/-- Looking up the key just set returns the new value. -/
theorem getKey_setKey_same (c : Config) (k : String) (v : ConfigVal) :
    getKey (setKey c k v) k = some v := by
  induction c with
  | nil => simp [setKey, getKey]
  | cons p rest ih =>
    by_cases h : p.1 = k
    · simp [setKey, getKey, h]
    · simp [setKey, getKey, h, ih]

/-- Setting one key leaves every other key's lookup unchanged. -/
theorem getKey_setKey_other (c : Config) (k k' : String) (v : ConfigVal)
    (h : k' ≠ k) : getKey (setKey c k v) k' = getKey c k' := by
  induction c with
  | nil => simp [setKey, getKey, h, Ne.symm h]
  | cons p rest ih =>
    by_cases hp : p.1 = k
    · simp [setKey, getKey, hp, h, Ne.symm h]
    · by_cases hp' : p.1 = k'
      · simp [setKey, getKey, hp, hp', h, Ne.symm h]
      · simp [setKey, getKey, hp, hp', h, Ne.symm h, ih]

/-- C7: when `config['unique_name']` holds the string `s`, the
`GatedRecurrentUnit` constructor succeeds, handing the base-class
constructor a mapping in which `clip_norm` is `0`, `unique_name` is
`"GRU_" ++ s`, and every other key is unchanged. -/
theorem gru_init_config_frame (config : Config) (s : String)
    (h : getKey config "unique_name" = some (.str s)) :
    ∃ cfg' : Config, gruInitConfig config = .ok cfg' ∧
      getKey cfg' "clip_norm" = some (.num 0) ∧
      getKey cfg' "unique_name" = some (.str ("GRU_" ++ s)) ∧
      ∀ k : String, k ≠ "clip_norm" → k ≠ "unique_name" →
        getKey cfg' k = getKey config k := by
  have h1 : getKey (setKey config "clip_norm" (.num 0)) "unique_name"
      = some (.str s) := by
    rw [getKey_setKey_other _ _ _ _ (by decide)]
    exact h
  refine ⟨setKey (setKey config "clip_norm" (.num 0)) "unique_name"
      (.str ("GRU_" ++ s)), ?_, ?_, ?_, ?_⟩
  · simp [gruInitConfig, h1]
  · rw [getKey_setKey_other _ _ _ _ (by decide), getKey_setKey_same]
  · rw [getKey_setKey_same]
  · intro k hk1 hk2
    rw [getKey_setKey_other _ _ _ _ hk2, getKey_setKey_other _ _ _ _ hk1]

/-- C7 witness: a concrete configuration. -/
theorem gru_init_config_frame_witness :
    ∃ cfg' : Config,
      gruInitConfig [("unique_name", .str "model"), ("lr_rate", .num 1)] = .ok cfg' ∧
      getKey cfg' "clip_norm" = some (.num 0) ∧
      getKey cfg' "unique_name" = some (.str ("GRU_" ++ "model")) ∧
      ∀ k : String, k ≠ "clip_norm" → k ≠ "unique_name" →
        getKey cfg' k = getKey [("unique_name", .str "model"), ("lr_rate", .num 1)] k :=
  gru_init_config_frame [("unique_name", .str "model"), ("lr_rate", .num 1)] "model"
    (by rfl)

/-- C6: each hidden-state accessor returns a single-element list whose
element has shape `[num_hidden * num_cells, 1]`; `get_h` and
`get_current_h` are zero-initialized and the `get_step_h` placeholder is
unbound, and all three agree on shape. -/
theorem hidden_state_accessors_shape (cfg : GRUConfig) :
    ∃ t1 t2 t3 : Tensor,
      GatedRecurrentUnit.get_h cfg = [t1] ∧
      GatedRecurrentUnit.get_step_h cfg = [t2] ∧
      GatedRecurrentUnit.get_current_h cfg = [t3] ∧
      t1.shape = [cfg.num_hidden * cfg.num_cells, 1] ∧
      t2.shape = t1.shape ∧ t3.shape = t1.shape ∧
      t1.data = .zeros ∧ t3.data = .zeros ∧ t2.data = .unbound :=
  ⟨_, _, _, rfl, rfl, rfl, rfl, rfl, rfl, rfl, rfl, rfl⟩

/-- C10: the three hidden-state accessors do not agree on element type:
`get_current_h` produces a `float64` numpy array (numpy's default) while
`get_h` and `get_step_h` produce `float32` tensors; only the shapes
coincide. -/
theorem hidden_state_accessors_dtype (cfg : GRUConfig) :
    (GatedRecurrentUnit.get_current_h cfg).map Tensor.dtype = [.float64] ∧
    (GatedRecurrentUnit.get_h cfg).map Tensor.dtype = [.float32] ∧
    (GatedRecurrentUnit.get_step_h cfg).map Tensor.dtype = [.float32] ∧
    Dtype.float64 ≠ Dtype.float32 ∧
    (GatedRecurrentUnit.get_current_h cfg).map Tensor.shape
      = (GatedRecurrentUnit.get_h cfg).map Tensor.shape ∧
    (GatedRecurrentUnit.get_step_h cfg).map Tensor.shape
      = (GatedRecurrentUnit.get_h cfg).map Tensor.shape :=
  ⟨rfl, rfl, rfl, by decide, rfl, rfl⟩

/-- C8: on the base `DataFilter` type, `apply_filter` raises
`NotImplementedError` for every input trajectory. -/
theorem apply_filter_not_implemented (trajectory : Traj) :
    DataFilter.apply_filter trajectory = .error .notImplementedError := rfl

/-- C9: on the base `DataFilter` type, `filter` raises the
not-implemented failure exactly when the input list is non-empty; on the
empty list it returns the empty list without invoking `apply_filter` at
all (the result on `[]` is the same for every `apply_filter` method). -/
theorem filter_base_raises_iff_nonempty (trajectories : List Traj) :
    (trajectories ≠ [] →
      DataFilter.filterTrajectories DataFilter.apply_filter trajectories
        = .error .notImplementedError) ∧
    (∀ af : Traj → Except PyError Traj,
      DataFilter.filterTrajectories af [] = .ok []) := by
  constructor
  · intro hne
    match trajectories, hne with
    | t :: ts, _ => rfl
  · intro af
    rfl

/-- C2 witness: a concrete override (dropping the first row) on two
concrete trajectories, one of which becomes empty. -/
theorem filter_is_nonzero_subsequence_witness :
    ∃ rf : List Traj,
      DataFilter.filterTrajectories (fun t => .ok (t.drop 1))
          ([[[1], [2]], [[3]]] : List Traj) = .ok rf ∧
      rf.Sublist (([[[1], [2]], [[3]]] : List Traj).map (fun t => t.drop 1)) ∧
      (∀ x : Traj, x.length ≠ 0 →
        rf.count x = (([[[1], [2]], [[3]]] : List Traj).map (fun t => t.drop 1)).count x) ∧
      (∀ x : Traj, x.length = 0 → rf.count x = 0) :=
  filter_is_nonzero_subsequence (fun t => t.drop 1) [[[1], [2]], [[3]]]

/-- C9 witness: the base `filter` raises on a concrete non-empty input
and returns the empty list on the empty input. -/
theorem filter_base_raises_iff_nonempty_witness :
    DataFilter.filterTrajectories DataFilter.apply_filter ([[[1]]] : List Traj)
      = .error .notImplementedError ∧
    DataFilter.filterTrajectories DataFilter.apply_filter ([] : List Traj) = .ok [] :=
  ⟨(filter_base_raises_iff_nonempty ([[[1]]] : List Traj)).1 (by decide),
   (filter_base_raises_iff_nonempty ([] : List Traj)).2 DataFilter.apply_filter⟩

/-- C4 witness: `create_layer` on a concrete three-variable store. -/
theorem create_layer_applies_declared_params_witness :
    GatedRecurrentUnit.create_layer ["cell0"] "gate" (fun q => q + 1) [[1]] [[1]]
        ⟨[(["cell0", "gate", "W"], ⟨0, [[2]]⟩), (["cell0", "gate", "R"], ⟨1, [[3]]⟩),
          (["cell0", "gate", "b"], ⟨2, [[5]]⟩)], 3⟩
      = .ok (matMap (fun q => q + 1)
            (matAdd (matAdd (matMul [[2]] [[1]]) (matMul [[3]] [[1]])) [[5]]),
          ⟨[(["cell0", "gate", "W"], ⟨0, [[2]]⟩), (["cell0", "gate", "R"], ⟨1, [[3]]⟩),
            (["cell0", "gate", "b"], ⟨2, [[5]]⟩)], 3⟩) :=
  create_layer_applies_declared_params ["cell0"] "gate" (fun q => q + 1) [[1]] [[1]]
    ⟨[(["cell0", "gate", "W"], ⟨0, [[2]]⟩), (["cell0", "gate", "R"], ⟨1, [[3]]⟩),
      (["cell0", "gate", "b"], ⟨2, [[5]]⟩)], 3⟩
    ⟨0, [[2]]⟩ ⟨1, [[3]]⟩ ⟨2, [[5]]⟩ (by decide) (by decide) (by decide)

/-- C1 witness: `create_cell` on the concrete store, input and hidden
state, at cell index 1. -/
theorem create_cell_matches_spec_formula_witness :
    GatedRecurrentUnit.create_cell witnessEnv [] "cell0" [[1]] [[[5], [7]]] 1 witnessStore
      = .ok ([claimedNewSlice witnessEnv [[2]] [[3, 1]] [[1]] [[1]] [[2, 2]] [[3]]
          [[4]] [[5]] [[6]] [[1]] [[5], [7]] 1], witnessStore) :=
  create_cell_matches_spec_formula witnessEnv [] "cell0" [[1]] [[5], [7]] 1 witnessStore
    ⟨0, [[2]]⟩ ⟨1, [[3, 1]]⟩ ⟨2, [[1]]⟩ ⟨3, [[1]]⟩ ⟨4, [[2, 2]]⟩ ⟨5, [[3]]⟩
    ⟨6, [[4]]⟩ ⟨7, [[5]]⟩ ⟨8, [[6]]⟩
    (by decide) (by decide) (by decide) (by decide) (by decide) (by decide)
    (by decide) (by decide) (by decide) (by decide)

/-- C5 witness: `init_layer` with multiplier 2 and `init_cell` on the
fresh graph, for the concrete environment. -/
theorem init_layer_and_init_cell_shapes_witness :
    (GatedRecurrentUnit.init_layer witnessEnv [] "n" 2 emptyStore = .ok
      ⟨[(["n", "W"], ⟨0, [[0]]⟩), (["n", "R"], ⟨1, [[0, 0]]⟩), (["n", "b"], ⟨2, [[0]]⟩)],
       3⟩) ∧
    HasShape [[0]] 1 1 ∧ HasShape [[0, 0]] 1 2 ∧ HasShape [[0]] 1 1 ∧
    (GatedRecurrentUnit.init_cell witnessEnv [] "n" emptyStore = .ok
      ⟨[(["n", "recurrent_gate", "W"], ⟨0, [[0]]⟩),
        (["n", "recurrent_gate", "R"], ⟨1, [[0, 0]]⟩),
        (["n", "recurrent_gate", "b"], ⟨2, [[0]]⟩),
        (["n", "input_gate", "W"], ⟨3, [[0]]⟩),
        (["n", "input_gate", "R"], ⟨4, [[0, 0]]⟩),
        (["n", "input_gate", "b"], ⟨5, [[0]]⟩),
        (["n", "input_node", "W"], ⟨6, [[0]]⟩),
        (["n", "input_node", "R"], ⟨7, [[0]]⟩),
        (["n", "input_node", "b"], ⟨8, [[0]]⟩)], 9⟩) :=
  init_layer_and_init_cell_shapes witnessEnv [] "n" 2 emptyStore
    (by decide) (by decide) (by decide)

/-- C3 witness: the create-once/reuse-many discipline on a fresh graph. -/
theorem init_layer_create_once_reuse_many_witness :
    ∃ s' : Store,
      GatedRecurrentUnit.init_layer witnessEnv [] "layer" 1 emptyStore = .ok s' ∧
      GatedRecurrentUnit.init_layer witnessEnv [] "layer" 1 s'
        = .error .variableAlreadyExists ∧
      (s'.vars.map Prod.fst).Nodup ∧
      ∃ vW vR vb : Variable,
        s'.vars = [(["layer", "W"], vW), (["layer", "R"], vR), (["layer", "b"], vb)] ∧
        getVariableReuse s' ["layer", "W"] = .ok (vW, s') ∧
        getVariableReuse s' ["layer", "R"] = .ok (vR, s') ∧
        getVariableReuse s' ["layer", "b"] = .ok (vb, s') ∧
        GatedRecurrentUnit.create_layer [] "layer" (fun q => q) [[1]] [[1]] s'
          = .ok (matMap (fun q => q)
              (matAdd (matAdd (matMul vW.value [[1]]) (matMul vR.value [[1]])) vb.value),
              s') :=
  init_layer_create_once_reuse_many witnessEnv [] "layer" 1 emptyStore (fun q => q)
    [[1]] [[1]] (by decide) (by decide) (by decide) (by decide)
